import Mathlib

/-!
Shallow embedding of the djangalytics analytics ingestion core
(`analytics/utils.py`, `analytics/serializers.py`, `analytics/views.py`,
`analytics/models.py`), together with theorems settling the specification
claims about it.

Modelling conventions:
* Python strings are `String`; optional request fields are `Option String`,
  and Python truthiness of such a value is `pyTruthy` (absent and `""` are
  both falsy).
* The wall clock and every random draw are explicit parameters, bundled in
  `Env` for the pipeline: the current minute bucket, the `%Y%m%d` date
  string, `secrets.randbelow(10000)`, and the `uuid.uuid4().hex` string.
* `hashlib.sha256(...).hexdigest()` is an external primitive and is modelled
  as an abstract function `String → String`; `f"{n:04d}"` decimal rendering
  is modelled explicitly by `natDigits`/`pad4`.
* Database tables are components of an explicit state, and the ORM
  primitives used by the source (`get_or_create` with defaults, an
  `F(...) + 1` update followed by `refresh_from_db`, filtered `delete`)
  are modelled by the corresponding pure state transformations.
-/

/-- Python truthiness of an optional string: `None` and `""` are falsy. -/
def pyTruthy : Option String → Bool
  | none => false
  | some s => !(s == "")

/-- `utils.get_client_ip`: first entry of the `X-Forwarded-For` chain,
stripped, when that header is truthy; otherwise `REMOTE_ADDR` (which may be
absent). -/
def get_client_ip (x_forwarded_for remote_addr : Option String) : Option String :=
  if pyTruthy x_forwarded_for then
    some ((((x_forwarded_for.getD "").splitOn ",").headD "").trim)
  else
    remote_addr

/-- `utils.generate_anonymous_user_id`, with the external randomness and the
hash function explicit: when both the IP address and the user agent are
truthy, the result is `anon_` plus the first 8 characters of the SHA-256 hex
digest of `ip ++ ":" ++ ua`; otherwise `anon_` plus the first 8 characters of
a random UUID4 hex string. -/
def generate_anonymous_user_id (sha256hex : String → String) (uuid4hex : String)
    (ip_address user_agent : Option String) : String :=
  if pyTruthy ip_address && pyTruthy user_agent then
    "anon_" ++ (sha256hex ((ip_address.getD "") ++ ":" ++ (user_agent.getD ""))).take 8
  else
    "anon_" ++ uuid4hex.take 8

/-- Decimal rendering worker, structurally recursive on a fuel bound (any
fuel above the value itself is enough, see `natDigits_eq`). -/
def natDigitsAux : Nat → Nat → List Char
  | 0, _ => []
  | fuel + 1, n =>
      if n < 10 then [Char.ofNat (48 + n)]
      else natDigitsAux fuel (n / 10) ++ [Char.ofNat (48 + n % 10)]

/-- Decimal digit characters of a natural number, most significant first:
the meaning of Python `"%d"` formatting. -/
def natDigits (n : Nat) : List Char :=
  natDigitsAux (n + 1) n

/-- Python `f"{n:04d}"`: the decimal rendering of `n`, left-padded with
zeros to width at least 4. -/
def pad4 (n : Nat) : String :=
  String.mk (List.replicate (4 - (natDigits n).length) '0' ++ natDigits n)

/-- `utils.generate_session_id`, with the clock date string and the
`secrets.randbelow(10000)` draw explicit. A truthy existing session id is
returned unchanged; a falsy `user_id` is replaced by the literal
`"unknown"`. -/
def generate_session_id (user_id existing_session_id : Option String)
    (today : String) (random_digits : Nat) : String :=
  if pyTruthy existing_session_id then existing_session_id.getD ""
  else
    let uid := if pyTruthy user_id then user_id.getD "" else "unknown"
    uid ++ "_" ++ today ++ "_" ++ pad4 random_digits

/-- The fixed high-frequency event-name set of `utils.should_sample_event`. -/
def high_frequency_events : List String :=
  ["direction_changed", "hedgehog_flap", "mouse_move", "scroll", "key_press"]

/-- `utils.should_sample_event`, with the `secrets.randbelow(100)` draw
explicit and the sample rate as an exact rational: a high-frequency name is
admitted iff the draw is strictly below `sample_rate * 100`; every other
name is always admitted. -/
def should_sample_event (event_name : String) (sample_rate : ℚ) (draw : Nat) : Bool :=
  if event_name ∈ high_frequency_events then
    decide ((draw : ℚ) < sample_rate * 100)
  else
    true

/-- A rate-limit counter table: logical key to current count, `none` when no
row exists for that key. `IPRateLimit` rows are keyed by
(`ip_address`, `minute_bucket`); the IP may be absent when the request
carries no address, and minute buckets are modelled as integers. -/
abbrev IPKey := Option String × Int

/-- `ProjectRateLimit` rows are keyed by (project primary key, `minute_bucket`). -/
abbrev ProjectKey := Nat × Int

/-- `utils.check_ip_rate_limit` on an explicit counter table, returning
`((is_allowed, current_count, limit), updated table)`. `get_or_create`
creates an absent row with `request_count = 1`; an existing row is bumped by
the atomic `F('request_count') + 1` update and re-read. -/
def check_ip_rate_limit (store : IPKey → Option Nat) (ip_address : Option String)
    (minute_bucket : Int) (limit_per_minute : Nat) :
    (Bool × Nat × Nat) × (IPKey → Option Nat) :=
  match store (ip_address, minute_bucket) with
  | none =>
      ((decide (1 ≤ limit_per_minute), 1, limit_per_minute),
       fun k => if k = (ip_address, minute_bucket) then some 1 else store k)
  | some c =>
      ((decide (c + 1 ≤ limit_per_minute), c + 1, limit_per_minute),
       fun k => if k = (ip_address, minute_bucket) then some (c + 1) else store k)

/-- `models.Project`, restricted to the fields the ingestion core reads. -/
structure Project where
  id : Nat
  name : String
  api_key : String
  is_active : Bool
  allowed_sources : List String
  rate_limit_per_minute : Nat
deriving DecidableEq, Repr

/-- `Project.is_source_allowed`: an empty allow-list admits every source. -/
def Project.is_source_allowed (p : Project) (source : String) : Bool :=
  if p.allowed_sources.isEmpty then true else p.allowed_sources.contains source

/-- `utils.check_project_rate_limit`: the limit defaults to the project's
configured `rate_limit_per_minute` when no override is supplied; otherwise
identical counter logic to the IP scope. -/
def check_project_rate_limit (store : ProjectKey → Option Nat) (project : Project)
    (limit_override : Option Nat) (minute_bucket : Int) :
    (Bool × Nat × Nat) × (ProjectKey → Option Nat) :=
  let limit_per_minute := limit_override.getD project.rate_limit_per_minute
  match store (project.id, minute_bucket) with
  | none =>
      ((decide (1 ≤ limit_per_minute), 1, limit_per_minute),
       fun k => if k = (project.id, minute_bucket) then some 1 else store k)
  | some c =>
      ((decide (c + 1 ≤ limit_per_minute), c + 1, limit_per_minute),
       fun k => if k = (project.id, minute_bucket) then some (c + 1) else store k)

/-- A stored `IPRateLimit` row (`models.IPRateLimit`). -/
structure IPRateLimitRow where
  ip_address : Option String
  minute_bucket : Int
  request_count : Nat
deriving DecidableEq, Repr

/-- A stored `ProjectRateLimit` row (`models.ProjectRateLimit`). -/
structure ProjectRateLimitRow where
  project_id : Nat
  minute_bucket : Int
  request_count : Nat
deriving DecidableEq, Repr

/-- `utils.cleanup_old_rate_limits`, with `timezone.now()` explicit as an
integer number of seconds: deletes every row of both tables whose
`minute_bucket` is strictly below `now - days_to_keep` days, and returns
`((ip rows deleted, project rows deleted), remaining ip rows, remaining
project rows)`. -/
def cleanup_old_rate_limits (ipRows : List IPRateLimitRow)
    (projectRows : List ProjectRateLimitRow) (now : Int) (days_to_keep : Nat) :
    (Nat × Nat) × List IPRateLimitRow × List ProjectRateLimitRow :=
  let cutoff_time : Int := now - (days_to_keep : Int) * 86400
  let ipKept := ipRows.filter (fun r => !decide (r.minute_bucket < cutoff_time))
  let ipDeleted := (ipRows.filter (fun r => decide (r.minute_bucket < cutoff_time))).length
  let pKept := projectRows.filter (fun r => !decide (r.minute_bucket < cutoff_time))
  let pDeleted := (projectRows.filter (fun r => decide (r.minute_bucket < cutoff_time))).length
  ((ipDeleted, pDeleted), ipKept, pKept)

/-!
Concurrency model for the rate-limit counter (claim about atomicity).

A rate-limit check for one logical key performs, in order, the two
database-atomic steps visible in `check_ip_rate_limit` /
`check_project_rate_limit`:
1. `get_or_create` — one linearizable database operation (enforced by the
   uniqueness constraint on the key): if no row exists, it creates one with
   `request_count = 1` and all the counter work of the call is done; if a
   row exists, the call still owes an update.
2. the `F('request_count') + 1` `update` — one linearizable in-place
   increment at the database.
N concurrent calls for the same key may interleave these steps arbitrarily;
the model below is the transition system of all such interleavings.
-/

/-- Progress of one of the `n` concurrent rate-limit calls. -/
inductive CallStatus where
  | idle
  | needUpdate
  | finished
deriving DecidableEq, Repr

/-- Shared counter value plus the per-call progress of `n` concurrent
rate-limit checks on one logical key. -/
structure RLConc (n : Nat) where
  counter : Option Nat
  status : Fin n → CallStatus

/-- The two database-atomic steps a call can take. -/
inductive RLAct (n : Nat) where
  | getOrCreate (i : Fin n)
  | update (i : Fin n)

/-- One interleaving step: `none` when the action is not enabled. -/
def rlStep {n : Nat} (s : RLConc n) : RLAct n → Option (RLConc n)
  | .getOrCreate i =>
      if s.status i = .idle then
        match s.counter with
        | none =>
            some { counter := some 1, status := Function.update s.status i .finished }
        | some _ =>
            some { counter := s.counter, status := Function.update s.status i .needUpdate }
      else none
  | .update i =>
      if s.status i = .needUpdate then
        match s.counter with
        | some c =>
            some { counter := some (c + 1), status := Function.update s.status i .finished }
        | none => none
      else none

/-- Run a whole interleaving (a list of atomic steps). -/
def rlRun {n : Nat} (s : RLConc n) : List (RLAct n) → Option (RLConc n)
  | [] => some s
  | a :: rest => (rlStep s a).bind (fun s' => rlRun s' rest)

/-- Fresh-bucket initial state: no counter row, every call still to run. -/
def rlInit (n : Nat) : RLConc n :=
  { counter := none, status := fun _ => .idle }

/-- Value of the counter, reading an absent row as 0. -/
def counterVal : Option Nat → Nat
  | none => 0
  | some c => c

/-- Number of calls whose counter work is complete. -/
def finishedCount {n : Nat} (s : RLConc n) : Nat :=
  (Finset.univ.filter (fun i => s.status i = CallStatus.finished)).card

/-!
The ingestion pipeline: `views.capture_event` with
`serializers.EventCreateSerializer`.
-/

/-- A `POST /capture/` request: body fields as the serializer sees them plus
the transport metadata the view and utilities read. `timestamp` and
`properties` pass through the pipeline untouched and are omitted, as are the
serializer's IP-format and timestamp-format checks on the two fields that
`create` overwrites server-side anyway. -/
structure CaptureRequest where
  event_name : Option String
  source : Option String
  api_key : Option String
  user_id : Option String
  session_id : Option String
  meta_user_agent : String
  x_forwarded_for : Option String
  remote_addr : Option String
deriving DecidableEq, Repr

/-- One field-level or object-level serializer error
(`EventCreateSerializer`): the DRF `required` / `blank` / `max_length`
checks of the writable fields, `validate_api_key`, and the allowed-source
check of `validate`. -/
inductive FieldError where
  | eventNameMissing
  | eventNameBlank
  | eventNameTooLong
  | sourceBlank
  | sourceTooLong
  | apiKeyMissing
  | apiKeyBlank
  | apiKeyInvalid
  | userIdTooLong
  | sessionIdTooLong
  | sourceNotAllowed
deriving DecidableEq, Repr

/-- `Project.objects.get(api_key=..., is_active=True)` as a table lookup
(`api_key` is unique). -/
def findActiveProject (projects : List Project) (api_key : String) : Option Project :=
  projects.find? (fun p => p.api_key == api_key && p.is_active)

/-- DRF `to_internal_value` on `EventCreateSerializer`: per-field validation
of every writable field, collecting all failures in field-declaration order.
`source` has default `"web"`, `user_id` and `session_id` allow null and
blank, `api_key` runs `validate_api_key` (active-project lookup). -/
def toInternalValueErrors (projects : List Project) (req : CaptureRequest) :
    List FieldError :=
  (match req.event_name with
   | none => [FieldError.eventNameMissing]
   | some s =>
       if s = "" then [FieldError.eventNameBlank]
       else if 100 < s.length then [FieldError.eventNameTooLong] else [])
  ++ (match req.source with
   | none => []
   | some s =>
       if s = "" then [FieldError.sourceBlank]
       else if 50 < s.length then [FieldError.sourceTooLong] else [])
  ++ (match req.api_key with
   | none => [FieldError.apiKeyMissing]
   | some s =>
       if s = "" then [FieldError.apiKeyBlank]
       else if (findActiveProject projects s).isNone then [FieldError.apiKeyInvalid]
       else [])
  ++ (match req.user_id with
   | none => []
   | some s => if 64 < s.length then [FieldError.userIdTooLong] else [])
  ++ (match req.session_id with
   | none => []
   | some s => if 64 < s.length then [FieldError.sessionIdTooLong] else [])

/-- The attributes `EventCreateSerializer.validate` returns for `create`. -/
structure ValidatedAttrs where
  event_name : String
  source : String
  user_id : String
  session_id : String
  project : Project
deriving DecidableEq, Repr

/-- Clock and randomness consumed by one pipeline run. -/
structure Env where
  sha256hex : String → String
  uuid4hex : String
  minute_bucket : Int
  today : String
  random_digits : Nat

/-- `EventCreateSerializer.is_valid`: field-level validation first (all
failures reported together); only when every field passes does object-level
`validate` run, which re-resolves the project (`Project.objects.get` cannot
fail there, since `validate_api_key` just succeeded — the impossible branch
is modelled as the same api-key error), authorizes the source, and resolves
identity via `generate_anonymous_user_id` / `generate_session_id`. -/
def run_validation (env : Env) (projects : List Project) (req : CaptureRequest) :
    Except (List FieldError) ValidatedAttrs :=
  let errs := toInternalValueErrors projects req
  if errs.isEmpty then
    match findActiveProject projects (req.api_key.getD "") with
    | none => Except.error [FieldError.apiKeyInvalid]
    | some project =>
        let source := req.source.getD "web"
        if project.is_source_allowed source then
          let user_id :=
            if pyTruthy req.user_id then req.user_id.getD ""
            else
              generate_anonymous_user_id env.sha256hex env.uuid4hex
                (get_client_ip req.x_forwarded_for req.remote_addr)
                (some req.meta_user_agent)
          let session_id :=
            if pyTruthy req.session_id then req.session_id.getD ""
            else generate_session_id (some user_id) none env.today env.random_digits
          Except.ok
            { event_name := req.event_name.getD "", source := source,
              user_id := user_id, session_id := session_id, project := project }
        else
          Except.error [FieldError.sourceNotAllowed]
  else
    Except.error errs

/-- A persisted `models.Event`, restricted to the fields the pipeline
resolves (`timestamp`/`properties` pass through and are omitted). -/
structure Event where
  project_id : Nat
  event_name : String
  source : String
  user_id : String
  session_id : String
  user_agent : String
  ip_address : Option String
deriving DecidableEq, Repr

/-- `EventCreateSerializer.create`: the persisted row, with `user_agent` and
`ip_address` always overwritten from the transport metadata (the view always
supplies the request in the serializer context). -/
def serializer_create (req : CaptureRequest) (attrs : ValidatedAttrs) : Event :=
  { project_id := attrs.project.id
    event_name := attrs.event_name
    source := attrs.source
    user_id := attrs.user_id
    session_id := attrs.session_id
    user_agent := req.meta_user_agent
    ip_address := get_client_ip req.x_forwarded_for req.remote_addr }

/-- Database state visible to the pipeline. -/
structure DBState where
  projects : List Project
  ipCounters : IPKey → Option Nat
  projectCounters : ProjectKey → Option Nat
  events : List Event

/-- The possible responses of `views.capture_event`. -/
inductive CaptureResponse where
  | ipRateLimited (current_count limit : Nat)
  | validationFailed (errors : List FieldError)
  | invalidApiKey
  | projectRateLimited (current_count limit : Nat)
  | created (event : Event)
deriving DecidableEq, Repr

/-- `views.capture_event`: IP rate limit (fixed 100/minute), serializer
validation, explicit active-project lookup on the posted `api_key`, project
rate limit at the project's configured quota, then persistence. -/
def capture_event (env : Env) (db : DBState) (req : CaptureRequest) :
    CaptureResponse × DBState :=
  let ipr := check_ip_rate_limit db.ipCounters
    (get_client_ip req.x_forwarded_for req.remote_addr) env.minute_bucket 100
  let db1 : DBState := { db with ipCounters := ipr.2 }
  if ipr.1.1 = false then
    (CaptureResponse.ipRateLimited ipr.1.2.1 ipr.1.2.2, db1)
  else
    match run_validation env db1.projects req with
    | Except.error errs => (CaptureResponse.validationFailed errs, db1)
    | Except.ok attrs =>
      match req.api_key with
      | none => (CaptureResponse.invalidApiKey, db1)
      | some key =>
        match findActiveProject db1.projects key with
        | none => (CaptureResponse.invalidApiKey, db1)
        | some project =>
          let pr := check_project_rate_limit db1.projectCounters project none
            env.minute_bucket
          let db2 : DBState := { db1 with projectCounters := pr.2 }
          if pr.1.1 = false then
            (CaptureResponse.projectRateLimited pr.1.2.1 pr.1.2.2, db2)
          else
            let event := serializer_create req attrs
            (CaptureResponse.created event, { db2 with events := event :: db2.events })

/-- Stage 1 passes: the IP-scope check admits the request. -/
def ipPasses (env : Env) (db : DBState) (req : CaptureRequest) : Prop :=
  (check_ip_rate_limit db.ipCounters
    (get_client_ip req.x_forwarded_for req.remote_addr) env.minute_bucket 100).1.1 = true

/-- Stage 2 passes: no field-level validation or authentication error. -/
def fieldStagePasses (db : DBState) (req : CaptureRequest) : Prop :=
  toInternalValueErrors db.projects req = []

/-- The active project the posted `api_key` resolves to, if any. -/
def foundProject (db : DBState) (req : CaptureRequest) : Option Project :=
  req.api_key.bind (findActiveProject db.projects)

/-- Stage 3 passes: the resolved project authorizes the request's source. -/
def sourceStagePasses (db : DBState) (req : CaptureRequest) : Prop :=
  ∃ p, foundProject db req = some p ∧
    p.is_source_allowed (req.source.getD "web") = true

/-- Stage 4 passes: the project-scope check admits the request. -/
def tenantStagePasses (env : Env) (db : DBState) (req : CaptureRequest) : Prop :=
  ∃ p, foundProject db req = some p ∧
    (check_project_rate_limit db.projectCounters p none env.minute_bucket).1.1 = true

/-- Number of distinct rejection reasons a response reports: each error
entry of a 400 body counts as one reason. -/
def numReasons : CaptureResponse → Nat
  | CaptureResponse.ipRateLimited _ _ => 1
  | CaptureResponse.validationFailed errs => errs.length
  | CaptureResponse.invalidApiKey => 1
  | CaptureResponse.projectRateLimited _ _ => 1
  | CaptureResponse.created _ => 0

/-!
Concrete fixtures used by witnesses and counterexamples.
-/

/-- A fixed stand-in for the SHA-256 hex digest function. -/
def shaFix : String → String :=
  fun _ => "0123456789abcdef0123456789abcdef0123456789abcdef0123456789abcdef"

/-- A fixed environment (clock and random draws). -/
def envFix : Env :=
  { sha256hex := shaFix, uuid4hex := "89abcdef01234567",
    minute_bucket := 0, today := "20250907", random_digits := 42 }

/-- An active project allowing every source, quota 1000/minute. -/
def projFix : Project :=
  { id := 1, name := "Snake", api_key := "pk_test", is_active := true,
    allowed_sources := [], rate_limit_per_minute := 1000 }

/-- A database holding just `projFix`, with empty counters and no events. -/
def dbFix : DBState :=
  { projects := [projFix], ipCounters := fun _ => none,
    projectCounters := fun _ => none, events := [] }

/-- A fully well-formed capture request for a high-frequency event name. -/
def reqFix : CaptureRequest :=
  { event_name := some "mouse_move", source := some "web",
    api_key := some "pk_test", user_id := some "u1", session_id := some "s1",
    meta_user_agent := "UA", x_forwarded_for := none,
    remote_addr := some "1.2.3.4" }

/-- A request that is missing its event name and carries an unknown API
key, so that two pipeline stages fail at once. -/
def reqTwoErrors : CaptureRequest :=
  { event_name := none, source := some "web",
    api_key := some "nope", user_id := some "u1", session_id := some "s1",
    meta_user_agent := "UA", x_forwarded_for := none,
    remote_addr := some "1.2.3.4" }

/-- The IP-scope check performed by stage 1 of a capture request. -/
def ipCheckOf (env : Env) (db : DBState) (req : CaptureRequest) :
    (Bool × Nat × Nat) × (IPKey → Option Nat) :=
  check_ip_rate_limit db.ipCounters
    (get_client_ip req.x_forwarded_for req.remote_addr) env.minute_bucket 100

/-- Database state right after stage 1 (IP counter bumped). -/
def db1Of (env : Env) (db : DBState) (req : CaptureRequest) : DBState :=
  { db with ipCounters := (ipCheckOf env db req).2 }

/-- The project-scope check a capture request performs for project `p`. -/
def prCheckOf (env : Env) (db : DBState) (p : Project) :
    (Bool × Nat × Nat) × (ProjectKey → Option Nat) :=
  check_project_rate_limit db.projectCounters p none env.minute_bucket

/-- Database state right after the tenant-scope check. -/
def db2Of (env : Env) (db : DBState) (req : CaptureRequest) (p : Project) : DBState :=
  { db1Of env db req with projectCounters := (prCheckOf env db p).2 }

/-- A request that supplies explicit empty strings for both identifiers. -/
def reqEmptyIds : CaptureRequest :=
  { event_name := some "click", source := some "web", api_key := some "pk_test",
    user_id := some "", session_id := some "", meta_user_agent := "UA",
    x_forwarded_for := none, remote_addr := some "1.2.3.4" }

/-!
Theorems.
-/

theorem natDigitsAux_congr (f1 : Nat) : ∀ (f2 n : Nat), n < f1 → n < f2 →
    natDigitsAux f1 n = natDigitsAux f2 n := by
  induction f1 with
  | zero => intro f2 n h1 _; omega
  | succ k ih =>
    intro f2 n h1 h2
    cases f2 with
    | zero => omega
    | succ m =>
      by_cases h : n < 10
      · simp [natDigitsAux, h]
      · have hd : n / 10 < n := Nat.div_lt_self (by omega) (by omega)
        simp only [natDigitsAux, if_neg h]
        rw [ih m (n / 10) (by omega) (by omega)]

theorem natDigits_eq (n : Nat) : natDigits n =
    if n < 10 then [Char.ofNat (48 + n)]
    else natDigits (n / 10) ++ [Char.ofNat (48 + n % 10)] := by
  by_cases h : n < 10
  · simp [natDigits, natDigitsAux, h]
  · have hd : n / 10 < n := Nat.div_lt_self (by omega) (by omega)
    have step : natDigitsAux (n + 1) n =
        natDigitsAux n (n / 10) ++ [Char.ofNat (48 + n % 10)] := by
      simp [natDigitsAux, h]
    rw [if_neg h]
    show natDigitsAux (n + 1) n = natDigits (n / 10) ++ [Char.ofNat (48 + n % 10)]
    rw [step]
    unfold natDigits
    rw [natDigitsAux_congr n (n / 10 + 1) (n / 10) (by omega) (by omega)]

theorem natDigits_length_pos (n : Nat) : 1 ≤ (natDigits n).length := by
  rw [natDigits_eq]
  by_cases h : n < 10 <;> simp [h]

theorem natDigits_length_le (k : Nat) : ∀ n, n < 10 ^ (k + 1) →
    (natDigits n).length ≤ k + 1 := by
  induction k with
  | zero =>
    intro n h
    rw [natDigits_eq]
    have h10 : n < 10 := by simpa using h
    simp [h10]
  | succ k ih =>
    intro n h
    rw [natDigits_eq]
    by_cases h10 : n < 10
    · simp [h10]
    · have hdiv : n / 10 < 10 ^ (k + 1) := by
        apply Nat.div_lt_of_lt_mul
        calc n < 10 ^ (k + 2) := h
        _ = 10 * 10 ^ (k + 1) := by ring
      have := ih (n / 10) hdiv
      simp only [if_neg h10, List.length_append, List.length_cons, List.length_nil]
      omega

theorem char_digit_isDigit (d : Nat) (h : d < 10) :
    (Char.ofNat (48 + d)).isDigit = true := by
  interval_cases d <;> decide

theorem natDigits_all_digit (n : Nat) :
    (natDigits n).all Char.isDigit = true := by
  induction n using Nat.strong_induction_on with
  | _ n ih =>
    rw [natDigits_eq]
    by_cases h : n < 10
    · simp [h, char_digit_isDigit n h]
    · have hd : n / 10 < n := Nat.div_lt_self (by omega) (by omega)
      simp [h, List.all_append, ih (n / 10) hd,
        char_digit_isDigit (n % 10) (Nat.mod_lt _ (by omega))]

theorem pad4_length (n : Nat) (h : n < 10000) : (pad4 n).length = 4 := by
  have h1 : (natDigits n).length ≤ 4 := natDigits_length_le 3 n (by omega)
  have h2 := natDigits_length_pos n
  simp only [pad4, String.length, List.length_append, List.length_replicate]
  omega

theorem pad4_digits (n : Nat) : (pad4 n).data.all Char.isDigit = true := by
  simp only [pad4, List.all_append, Bool.and_eq_true]
  refine ⟨?_, natDigits_all_digit n⟩
  simp [List.all_eq_true, List.mem_replicate]

/-- C6: with both IP and user-agent available (truthy) and no client
user_id in play, the anonymous id is the string `anon_` followed by the
first 8 hex characters of SHA-256 of `"{ip}:{user-agent}"`; the result does
not depend on the random UUID source, so two calls with the same pair agree;
and when IP or user-agent is unavailable the result is the `anon_`-prefixed
random id instead. -/
theorem c6_anonymous_user_id (sha256hex : String → String) (u u' ip ua : String)
    (hip : ip ≠ "") (hua : ua ≠ "") :
    generate_anonymous_user_id sha256hex u (some ip) (some ua) =
      "anon_" ++ (sha256hex (ip ++ ":" ++ ua)).take 8
    ∧ generate_anonymous_user_id sha256hex u (some ip) (some ua) =
        generate_anonymous_user_id sha256hex u' (some ip) (some ua)
    ∧ (∀ ip? ua? : Option String, (pyTruthy ip? && pyTruthy ua?) = false →
        generate_anonymous_user_id sha256hex u ip? ua? = "anon_" ++ u.take 8) := by
  refine ⟨?_, ?_, ?_⟩
  · simp [generate_anonymous_user_id, pyTruthy, hip, hua]
  · simp [generate_anonymous_user_id, pyTruthy, hip, hua]
  · intro ip? ua? hfalsy
    simp [generate_anonymous_user_id, hfalsy]

/-- Witness for C6 at a concrete IP and user-agent. -/
theorem c6_anonymous_user_id_witness :
    generate_anonymous_user_id shaFix "89abcdef01234567" (some "1.2.3.4") (some "UA") =
      "anon_" ++ (shaFix ("1.2.3.4" ++ ":" ++ "UA")).take 8 :=
  (c6_anonymous_user_id shaFix "89abcdef01234567" "89abcdef01234567" "1.2.3.4" "UA"
    (by decide) (by decide)).1

/-- C7: a truthy supplied session id is returned unchanged; otherwise the
result is `{user_id}_{date}_{NNNN}` where the date string comes from the
server clock and `NNNN` is the random draw below 10000 rendered as exactly 4
digit characters with leading zeros; a falsy user id is replaced by the
literal `unknown`. -/
theorem c7_session_id (uid ex today : String) (r : Nat) (hex : ex ≠ "")
    (hr : r < 10000) :
    (∀ u : Option String, generate_session_id u (some ex) today r = ex)
    ∧ (uid ≠ "" → generate_session_id (some uid) none today r =
        uid ++ "_" ++ today ++ "_" ++ pad4 r)
    ∧ generate_session_id none none today r =
        "unknown" ++ "_" ++ today ++ "_" ++ pad4 r
    ∧ generate_session_id (some "") none today r =
        "unknown" ++ "_" ++ today ++ "_" ++ pad4 r
    ∧ (pad4 r).length = 4
    ∧ (pad4 r).data.all Char.isDigit = true := by
  refine ⟨?_, ?_, ?_, ?_, pad4_length r hr, pad4_digits r⟩
  · intro u
    simp [generate_session_id, pyTruthy, hex]
  · intro hu
    simp [generate_session_id, pyTruthy, hu]
  · simp [generate_session_id, pyTruthy]
  · simp [generate_session_id, pyTruthy]

/-- Witness for C7: the spec's own example shape on the fixed clock date
2025-09-07. -/
theorem c7_session_id_witness :
    generate_session_id (some "anon_12345678") none "20250907" 42 =
      "anon_12345678" ++ "_" ++ "20250907" ++ "_" ++ pad4 42
    ∧ (pad4 42).length = 4
    ∧ (pad4 42).data.all Char.isDigit = true := by
  have h := c7_session_id "anon_12345678" "s" "20250907" 42 (by decide) (by decide)
  exact ⟨h.2.1 (by decide), h.2.2.2.2.1, h.2.2.2.2.2⟩

/-- C8: a name outside the high-frequency set is always admitted for every
sample rate; a high-frequency name is admitted exactly when the draw in
[0, 100) is strictly below `sample_rate * 100`; hence rate 0 admits nothing
on a high-frequency name and any rate at least 1 admits everything. -/
theorem c8_should_sample (name : String) (rate : ℚ) (draw : Nat) :
    (name ∉ high_frequency_events → should_sample_event name rate draw = true)
    ∧ (name ∈ high_frequency_events →
        (should_sample_event name rate draw = true ↔ (draw : ℚ) < rate * 100))
    ∧ (name ∈ high_frequency_events →
        should_sample_event name 0 draw = false)
    ∧ (1 ≤ rate → draw < 100 → should_sample_event name rate draw = true) := by
  refine ⟨?_, ?_, ?_, ?_⟩
  · intro h
    simp [should_sample_event, h]
  · intro h
    simp [should_sample_event, h]
  · intro h
    simp only [should_sample_event, if_pos h, decide_eq_false_iff_not, not_lt, zero_mul]
    positivity
  · intro hrate hdraw
    by_cases h : name ∈ high_frequency_events
    · simp only [should_sample_event, if_pos h, decide_eq_true_eq]
      have h1 : (draw : ℚ) < 100 := by exact_mod_cast hdraw
      nlinarith
    · simp [should_sample_event, h]

/-- Witness for C8: a rate of 2 admits draw 99 on the high-frequency name
`scroll`. -/
theorem c8_should_sample_witness :
    should_sample_event "scroll" 2 99 = true :=
  (c8_should_sample "scroll" 2 99).2.2.2 (by norm_num) (by norm_num)

/-- C1: a rate-limit check in either scope increments the counter for its
(key, minute bucket) by exactly 1 — creating it at 1 when absent —
unconditionally, touches no other key, and returns
`allowed = (current_count <= limit)`; with limit 3, four successive calls in
one bucket return allowed = true, true, true and then false with count 4. -/
theorem c1_rate_limit_check (store : IPKey → Option Nat)
    (pstore : ProjectKey → Option Nat) (ip : Option String) (b : Int) (L : Nat)
    (p : Project) (ov : Option Nat) :
    ((check_ip_rate_limit store ip b L).2 (ip, b) =
        some ((store (ip, b)).getD 0 + 1)
      ∧ (∀ k, k ≠ (ip, b) → (check_ip_rate_limit store ip b L).2 k = store k)
      ∧ (check_ip_rate_limit store ip b L).1 =
          (decide ((store (ip, b)).getD 0 + 1 ≤ L), (store (ip, b)).getD 0 + 1, L))
    ∧ ((check_project_rate_limit pstore p ov b).2 (p.id, b) =
        some ((pstore (p.id, b)).getD 0 + 1)
      ∧ (∀ k, k ≠ (p.id, b) → (check_project_rate_limit pstore p ov b).2 k = pstore k)
      ∧ (check_project_rate_limit pstore p ov b).1 =
          (decide ((pstore (p.id, b)).getD 0 + 1 ≤ ov.getD p.rate_limit_per_minute),
           (pstore (p.id, b)).getD 0 + 1, ov.getD p.rate_limit_per_minute))
    ∧ (let s0 : IPKey → Option Nat := fun _ => none
       let r1 := check_ip_rate_limit s0 (some "ip") 0 3
       let r2 := check_ip_rate_limit r1.2 (some "ip") 0 3
       let r3 := check_ip_rate_limit r2.2 (some "ip") 0 3
       let r4 := check_ip_rate_limit r3.2 (some "ip") 0 3
       r1.1 = (true, 1, 3) ∧ r2.1 = (true, 2, 3) ∧ r3.1 = (true, 3, 3)
         ∧ r4.1 = (false, 4, 3)) := by
  refine ⟨⟨?_, ?_, ?_⟩, ⟨?_, ?_, ?_⟩, by decide⟩
  · rcases h : store (ip, b) with _ | c <;> simp [check_ip_rate_limit, h]
  · intro k hk
    rcases h : store (ip, b) with _ | c <;> simp [check_ip_rate_limit, h, hk]
  · rcases h : store (ip, b) with _ | c <;> simp [check_ip_rate_limit, h]
  · rcases h : pstore (p.id, b) with _ | c <;> simp [check_project_rate_limit, h]
  · intro k hk
    rcases h : pstore (p.id, b) with _ | c <;>
      simp [check_project_rate_limit, h, hk]
  · rcases h : pstore (p.id, b) with _ | c <;> simp [check_project_rate_limit, h]

/-- Witness for C1 at a concrete store and keys. -/
theorem c1_rate_limit_check_witness :
    (check_ip_rate_limit (fun _ => none) (some "a") 0 3).2 (some "b", 0) = none := by
  have h := (c1_rate_limit_check (fun _ => none) (fun _ => none) (some "a") 0 3
    projFix none).1.2.1 (some "b", 0) (by decide)
  simpa using h

theorem rlStep_counts {n : Nat} {s s' : RLConc n} {a : RLAct n}
    (h : rlStep s a = some s') (hinv : counterVal s.counter = finishedCount s) :
    counterVal s'.counter = finishedCount s' := by
  have upd_to_finished : ∀ (f : Fin n → CallStatus) (i : Fin n),
      f i ≠ CallStatus.finished →
      (Finset.univ.filter
          (fun j => Function.update f i CallStatus.finished j = CallStatus.finished)).card
        = (Finset.univ.filter (fun j => f j = CallStatus.finished)).card + 1 := by
    intro f i hf
    have hset : Finset.univ.filter
          (fun j => Function.update f i CallStatus.finished j = CallStatus.finished)
        = insert i (Finset.univ.filter (fun j => f j = CallStatus.finished)) := by
      ext j
      by_cases hj : j = i
      · subst hj; simp [Function.update_apply]
      · simp [Function.update_apply, hj]
    rw [hset, Finset.card_insert_of_not_mem (by simp [hf])]
  have upd_to_need : ∀ (f : Fin n → CallStatus) (i : Fin n),
      f i ≠ CallStatus.finished →
      (Finset.univ.filter
          (fun j => Function.update f i CallStatus.needUpdate j = CallStatus.finished)).card
        = (Finset.univ.filter (fun j => f j = CallStatus.finished)).card := by
    intro f i hf
    congr 1
    ext j
    by_cases hj : j = i
    · subst hj; simp [Function.update_apply, hf]
    · simp [Function.update_apply, hj]
  cases a with
  | getOrCreate i =>
    by_cases hs : s.status i = CallStatus.idle
    · rcases hc : s.counter with _ | c
      · simp only [rlStep, if_pos hs, hc] at h
        cases h
        simp only [finishedCount] at hinv ⊢
        rw [upd_to_finished s.status i (by rw [hs]; intro hcon; cases hcon)]
        rw [hc] at hinv
        simp only [counterVal] at hinv ⊢
        omega
      · simp only [rlStep, if_pos hs, hc] at h
        cases h
        simp only [finishedCount] at hinv ⊢
        rw [upd_to_need s.status i (by rw [hs]; intro hcon; cases hcon)]
        rw [hc] at hinv
        exact hinv
    · simp [rlStep, hs] at h
  | update i =>
    by_cases hs : s.status i = CallStatus.needUpdate
    · rcases hc : s.counter with _ | c
      · simp [rlStep, hs, hc] at h
      · simp only [rlStep, if_pos hs, hc] at h
        cases h
        simp only [finishedCount] at hinv ⊢
        rw [upd_to_finished s.status i (by rw [hs]; intro hcon; cases hcon)]
        rw [hc] at hinv
        simp only [counterVal] at hinv ⊢
        omega
    · simp [rlStep, hs] at h

theorem rlRun_counts {n : Nat} (acts : List (RLAct n)) : ∀ (s s' : RLConc n),
    rlRun s acts = some s' → counterVal s.counter = finishedCount s →
    counterVal s'.counter = finishedCount s' := by
  induction acts with
  | nil =>
    intro s s' h hinv
    simp only [rlRun] at h
    cases h
    exact hinv
  | cons a rest ih =>
    intro s s' h hinv
    rcases hstep : rlStep s a with _ | smid
    · simp [rlRun, hstep] at h
    · simp only [rlRun, hstep, Option.some_bind] at h
      exact ih smid s' h (rlStep_counts hstep hinv)

/-- C2: any interleaving of the get-or-create and atomic-update steps of N
concurrent rate-limit checks on one fresh (key, minute bucket), once every
call has completed its counter work, leaves the counter at exactly N — no
increment is lost. -/
theorem c2_no_lost_updates (n : Nat) (acts : List (RLAct n)) (s' : RLConc n)
    (hrun : rlRun (rlInit n) acts = some s')
    (hdone : ∀ i, s'.status i = CallStatus.finished) :
    counterVal s'.counter = n := by
  have hinv : counterVal s'.counter = finishedCount s' := by
    apply rlRun_counts acts (rlInit n) s' hrun
    simp [rlInit, counterVal, finishedCount]
  rw [hinv]
  unfold finishedCount
  rw [Finset.filter_true_of_mem (fun i _ => hdone i)]
  simp

/-- Witness for C2: two concurrent calls, the second interleaved between
creation and nothing else, end with the counter at 2. -/
theorem c2_no_lost_updates_witness :
    rlRun (rlInit 2) [RLAct.getOrCreate 0, RLAct.getOrCreate 1, RLAct.update 1]
      = some { counter := some 2,
               status := Function.update (Function.update
                 (Function.update (fun _ => CallStatus.idle) 0 CallStatus.finished)
                 1 CallStatus.needUpdate) 1 CallStatus.finished }
    ∧ counterVal (some 2) = 2 := by
  refine ⟨rfl, ?_⟩
  exact c2_no_lost_updates 2 [RLAct.getOrCreate 0, RLAct.getOrCreate 1, RLAct.update 1]
    _ rfl (by decide)

theorem filter_split_length {α : Type} (p : α → Bool) (l : List α) :
    (l.filter p).length + (l.filter (fun a => !(p a))).length = l.length := by
  induction l with
  | nil => rfl
  | cons a t ih =>
    by_cases h : p a = true <;> simp [List.filter_cons, h] <;> omega

theorem filter_of_filter_not {α : Type} (p : α → Bool) (l : List α) :
    (l.filter (fun a => !(p a))).filter p = [] := by
  rw [List.filter_filter]
  have : (fun a => p a && !(p a)) = fun _ => false := by
    funext a
    by_cases h : p a = true <;> simp [h]
  rw [this, List.filter_false]

/-- C9: the sweep deletes exactly those counter rows of both scopes whose
minute bucket is strictly older than `now` minus the retention horizon, the
returned pair counts the per-scope deletions, and an immediate second sweep
with no intervening writes deletes zero rows. -/
theorem c9_cleanup (ipRows : List IPRateLimitRow)
    (projectRows : List ProjectRateLimitRow) (now : Int) (days : Nat) :
    (cleanup_old_rate_limits ipRows projectRows now days).1.1
        + (cleanup_old_rate_limits ipRows projectRows now days).2.1.length
        = ipRows.length
    ∧ (cleanup_old_rate_limits ipRows projectRows now days).1.2
        + (cleanup_old_rate_limits ipRows projectRows now days).2.2.length
        = projectRows.length
    ∧ (∀ r ∈ ipRows, r ∈ (cleanup_old_rate_limits ipRows projectRows now days).2.1
        ↔ ¬ r.minute_bucket < now - (days : Int) * 86400)
    ∧ (∀ r ∈ (cleanup_old_rate_limits ipRows projectRows now days).2.1, r ∈ ipRows)
    ∧ (∀ r ∈ projectRows,
        r ∈ (cleanup_old_rate_limits ipRows projectRows now days).2.2
        ↔ ¬ r.minute_bucket < now - (days : Int) * 86400)
    ∧ (∀ r ∈ (cleanup_old_rate_limits ipRows projectRows now days).2.2,
        r ∈ projectRows)
    ∧ (cleanup_old_rate_limits
        (cleanup_old_rate_limits ipRows projectRows now days).2.1
        (cleanup_old_rate_limits ipRows projectRows now days).2.2
        now days).1 = (0, 0) := by
  refine ⟨?_, ?_, ?_, ?_, ?_, ?_, ?_⟩
  · simpa [cleanup_old_rate_limits] using
      filter_split_length (fun r : IPRateLimitRow =>
        decide (r.minute_bucket < now - (days : Int) * 86400)) ipRows
  · simpa [cleanup_old_rate_limits] using
      filter_split_length (fun r : ProjectRateLimitRow =>
        decide (r.minute_bucket < now - (days : Int) * 86400)) projectRows
  · intro r hr
    simp [cleanup_old_rate_limits, List.mem_filter, hr]
  · intro r hr
    simp only [cleanup_old_rate_limits, List.mem_filter] at hr
    exact hr.1
  · intro r hr
    simp [cleanup_old_rate_limits, List.mem_filter, hr]
  · intro r hr
    simp only [cleanup_old_rate_limits, List.mem_filter] at hr
    exact hr.1
  · simp only [cleanup_old_rate_limits]
    rw [filter_of_filter_not, filter_of_filter_not]
    rfl

/-- Witness for C9: a week-old row is not among the kept rows. -/
theorem c9_cleanup_witness :
    ({ ip_address := some "a", minute_bucket := 0, request_count := 5 } : IPRateLimitRow)
      ∉ (cleanup_old_rate_limits
          [{ ip_address := some "a", minute_bucket := 0, request_count := 5 }]
          [] (86400 * 8) 7).2.1 := by
  intro hmem
  have h := (c9_cleanup
    [{ ip_address := some "a", minute_bucket := 0, request_count := 5 }]
    [] (86400 * 8) 7).2.2.1
    { ip_address := some "a", minute_bucket := 0, request_count := 5 }
    (by simp)
  exact (h.1 hmem) (by decide)

theorem toInternalValueErrors_nil {projects : List Project} {req : CaptureRequest}
    (h : toInternalValueErrors projects req = []) :
    ∃ k, req.api_key = some k ∧ k ≠ "" ∧ (findActiveProject projects k).isSome := by
  simp only [toInternalValueErrors, List.append_eq_nil] at h
  obtain ⟨⟨⟨⟨-, -⟩, hkey⟩, -⟩, -⟩ := h
  rcases hak : req.api_key with _ | k
  · rw [hak] at hkey; simp at hkey
  · rw [hak] at hkey
    by_cases hblank : k = ""
    · simp [hblank] at hkey
    · by_cases hfind : (findActiveProject projects k).isNone
      · simp [hblank, hfind] at hkey
      · rcases hq : findActiveProject projects k with _ | p
        · rw [hq] at hfind; simp at hfind
        · exact ⟨k, rfl, hblank, by simp [hq]⟩

theorem run_validation_ok_inv {env : Env} {projects : List Project}
    {req : CaptureRequest} {attrs : ValidatedAttrs}
    (h : run_validation env projects req = Except.ok attrs) :
    toInternalValueErrors projects req = []
    ∧ (∃ k, req.api_key = some k
        ∧ findActiveProject projects k = some attrs.project)
    ∧ attrs.project.is_source_allowed (req.source.getD "web") = true
    ∧ attrs.user_id = (if pyTruthy req.user_id then req.user_id.getD ""
        else generate_anonymous_user_id env.sha256hex env.uuid4hex
          (get_client_ip req.x_forwarded_for req.remote_addr)
          (some req.meta_user_agent))
    ∧ attrs.session_id = (if pyTruthy req.session_id then req.session_id.getD ""
        else generate_session_id (some attrs.user_id) none env.today
          env.random_digits) := by
  by_cases hnil : toInternalValueErrors projects req = []
  · obtain ⟨k, hak, hk, hfind⟩ := toInternalValueErrors_nil hnil
    simp only [run_validation, hnil, List.isEmpty_nil, if_pos] at h
    rw [hak] at h
    simp only [Option.getD_some] at h
    rcases hfp : findActiveProject projects k with _ | project
    · rw [hfp] at h; simp at h
    · rw [hfp] at h
      by_cases hsrc : project.is_source_allowed (req.source.getD "web") = true
      · simp only [hsrc, if_pos] at h
        cases h
        refine ⟨hnil, ⟨k, hak, ?_⟩, ?_, rfl, rfl⟩ <;> simp [hfp, hsrc]
      · simp [hsrc] at h
  · simp [run_validation, hnil, List.isEmpty_eq_true] at h

theorem capture_event_char (env : Env) (db : DBState) (req : CaptureRequest) :
    ((ipCheckOf env db req).1.1 = false
      ∧ capture_event env db req =
          (CaptureResponse.ipRateLimited (ipCheckOf env db req).1.2.1
            (ipCheckOf env db req).1.2.2, db1Of env db req))
    ∨ ((ipCheckOf env db req).1.1 = true
      ∧ ∃ errs, run_validation env db.projects req = Except.error errs
        ∧ capture_event env db req =
            (CaptureResponse.validationFailed errs, db1Of env db req))
    ∨ ((ipCheckOf env db req).1.1 = true
      ∧ ∃ attrs key, run_validation env db.projects req = Except.ok attrs
        ∧ req.api_key = some key
        ∧ findActiveProject db.projects key = some attrs.project
        ∧ (((prCheckOf env db attrs.project).1.1 = false
            ∧ capture_event env db req =
                (CaptureResponse.projectRateLimited
                  (prCheckOf env db attrs.project).1.2.1
                  (prCheckOf env db attrs.project).1.2.2,
                 db2Of env db req attrs.project))
          ∨ ((prCheckOf env db attrs.project).1.1 = true
            ∧ capture_event env db req =
                (CaptureResponse.created (serializer_create req attrs),
                 { db2Of env db req attrs.project with
                     events := serializer_create req attrs
                       :: (db2Of env db req attrs.project).events })))) := by
  by_cases hip : (ipCheckOf env db req).1.1 = false
  · left
    refine ⟨hip, ?_⟩
    have hip' := hip
    unfold ipCheckOf at hip'
    simp [capture_event, hip', ipCheckOf, db1Of]
  · have hipT : (ipCheckOf env db req).1.1 = true := by
      revert hip; cases (ipCheckOf env db req).1.1 <;> simp
    have hip' : ¬ ((check_ip_rate_limit db.ipCounters
        (get_client_ip req.x_forwarded_for req.remote_addr)
        env.minute_bucket 100).1.1 = false) := by
      unfold ipCheckOf at hip; exact hip
    rcases hrv : run_validation env db.projects req with errs | attrs
    · right; left
      refine ⟨hipT, errs, rfl, ?_⟩
      simp [capture_event, hip', hrv, ipCheckOf, db1Of]
    · right; right
      obtain ⟨-, ⟨key, hak, hfp⟩, -, -, -⟩ := run_validation_ok_inv hrv
      refine ⟨hipT, attrs, key, rfl, hak, hfp, ?_⟩
      by_cases hpr : (prCheckOf env db attrs.project).1.1 = false
      · left
        refine ⟨hpr, ?_⟩
        have hpr' := hpr
        unfold prCheckOf at hpr'
        simp [capture_event, hip', hrv, hak, hfp, hpr', ipCheckOf, db1Of,
          prCheckOf, db2Of]
      · right
        have hpr' : ¬ ((check_project_rate_limit db.projectCounters attrs.project
            none env.minute_bucket).1.1 = false) := by
          unfold prCheckOf at hpr; exact hpr
        refine ⟨by revert hpr; cases (prCheckOf env db attrs.project).1.1 <;> simp, ?_⟩
        simp [capture_event, hip', hrv, hak, hfp, hpr', ipCheckOf, db1Of,
          prCheckOf, db2Of]

theorem string_ne_empty_of_length_pos {s : String} (h : 0 < s.length) : s ≠ "" := by
  intro hc
  rw [hc] at h
  simp at h

theorem generate_anonymous_user_id_ne_empty (sha256hex : String → String)
    (uuid4hex : String) (ip ua : Option String) :
    generate_anonymous_user_id sha256hex uuid4hex ip ua ≠ "" := by
  apply string_ne_empty_of_length_pos
  unfold generate_anonymous_user_id
  have h5 : ("anon_" : String).length = 5 := rfl
  split <;> rw [String.length_append] <;> omega

theorem generate_session_id_fresh_ne_empty (u : Option String) (today : String)
    (r : Nat) : generate_session_id u none today r ≠ "" := by
  apply string_ne_empty_of_length_pos
  unfold generate_session_id
  have h1 : ("_" : String).length = 1 := rfl
  simp only [pyTruthy, Bool.false_eq_true, if_false]
  rw [String.length_append, String.length_append, String.length_append,
    String.length_append]
  omega

theorem check_ip_bump (store : IPKey → Option Nat) (ip : Option String) (b : Int)
    (L : Nat) : (check_ip_rate_limit store ip b L).2 (ip, b) =
      some ((store (ip, b)).getD 0 + 1) := by
  rcases h : store (ip, b) with _ | c <;> simp [check_ip_rate_limit, h]

theorem check_ip_frame (store : IPKey → Option Nat) (ip : Option String) (b : Int)
    (L : Nat) (k : IPKey) (hk : k ≠ (ip, b)) :
    (check_ip_rate_limit store ip b L).2 k = store k := by
  rcases h : store (ip, b) with _ | c <;> simp [check_ip_rate_limit, h, hk]

theorem sourceNotAllowed_not_in_field_errors (projects : List Project)
    (req : CaptureRequest) :
    FieldError.sourceNotAllowed ∉ toInternalValueErrors projects req := by
  intro hmem
  simp only [toInternalValueErrors, List.mem_append] at hmem
  rcases hmem with ((((h | h) | h) | h) | h)
  · rcases hx : req.event_name with _ | en <;> rw [hx] at h <;> dsimp only at h
    · simp at h
    · split_ifs at h <;> simp_all
  · rcases hx : req.source with _ | s <;> rw [hx] at h <;> dsimp only at h
    · simp at h
    · split_ifs at h <;> simp_all
  · rcases hx : req.api_key with _ | k <;> rw [hx] at h <;> dsimp only at h
    · simp at h
    · split_ifs at h <;> simp_all
  · rcases hx : req.user_id with _ | u <;> rw [hx] at h <;> dsimp only at h
    · simp at h
    · split_ifs at h <;> simp_all
  · rcases hx : req.session_id with _ | sid <;> rw [hx] at h <;> dsimp only at h
    · simp at h
    · split_ifs at h <;> simp_all

theorem run_validation_error_inv {env : Env} {projects : List Project}
    {req : CaptureRequest} {errs : List FieldError}
    (h : run_validation env projects req = Except.error errs) :
    (toInternalValueErrors projects req ≠ []
      ∧ errs = toInternalValueErrors projects req)
    ∨ (toInternalValueErrors projects req = []
      ∧ errs = [FieldError.sourceNotAllowed]
      ∧ ∃ p k, req.api_key = some k ∧ findActiveProject projects k = some p
          ∧ p.is_source_allowed (req.source.getD "web") = false) := by
  by_cases hnil : toInternalValueErrors projects req = []
  · right
    obtain ⟨k, hak, hkne, hsome⟩ := toInternalValueErrors_nil hnil
    simp only [run_validation, hnil, List.isEmpty_nil, if_pos] at h
    rw [hak] at h
    simp only [Option.getD_some] at h
    rcases hfp : findActiveProject projects k with _ | p
    · rw [hfp] at hsome; simp at hsome
    · rw [hfp] at h
      dsimp only at h
      by_cases hsrc : p.is_source_allowed (req.source.getD "web") = true
      · simp [hsrc] at h
      · rw [if_neg hsrc] at h
        cases h
        have hsrc' : p.is_source_allowed (req.source.getD "web") = false := by
          revert hsrc; cases p.is_source_allowed (req.source.getD "web") <;> simp
        exact ⟨hnil, rfl, p, k, hak, hfp, hsrc'⟩
  · left
    have hne : ¬ ((toInternalValueErrors projects req).isEmpty = true) := by
      simpa [List.isEmpty_iff] using hnil
    simp only [run_validation, if_neg hne] at h
    cases h
    exact ⟨hnil, rfl⟩

/-- C3 amended: the ingestion pipeline never consults the sampling gate —
every request that passes IP admission, validation, authentication and
tenant admission has its event persisted, even when `should_sample_event`
would not sample that event name. -/
theorem c3_no_sampling_before_persistence (env : Env) (db : DBState)
    (req : CaptureRequest) (e : Event) (rate : ℚ) (draw : Nat)
    (h : (capture_event env db req).1 = CaptureResponse.created e)
    (hns : should_sample_event e.event_name rate draw = false) :
    (capture_event env db req).2.events = e :: db.events := by
  rcases capture_event_char env db req with ⟨hip, heq⟩ | ⟨hip, errs0, hrv, heq⟩ |
    ⟨hip, attrs, key, hrv, hak, hfp, ⟨hpr, heq⟩ | ⟨hpr, heq⟩⟩
  · rw [heq] at h; simp at h
  · rw [heq] at h; simp at h
  · rw [heq] at h; simp at h
  · rw [heq] at h ⊢
    simp only [CaptureResponse.created.injEq] at h
    subst h
    simp [db2Of, db1Of]

/-- C3 counterexample: a concrete admitted request for the high-frequency
event name `mouse_move` is persisted although the sampling gate (rate 0.1,
draw 50) would not sample it — the spec claims it would not be persisted. -/
theorem c3_counterexample :
    should_sample_event "mouse_move" (1/10) 50 = false
    ∧ (capture_event envFix dbFix reqFix).1 = CaptureResponse.created
        { project_id := 1, event_name := "mouse_move", source := "web",
          user_id := "u1", session_id := "s1", user_agent := "UA",
          ip_address := some "1.2.3.4" }
    ∧ (capture_event envFix dbFix reqFix).2.events =
        [{ project_id := 1, event_name := "mouse_move", source := "web",
           user_id := "u1", session_id := "s1", user_agent := "UA",
           ip_address := some "1.2.3.4" }] := by
  refine ⟨by norm_num [should_sample_event, high_frequency_events], rfl, rfl⟩

/-- Witness for the amended C3 at the concrete fixtures. -/
theorem c3_no_sampling_witness :
    (capture_event envFix dbFix reqFix).2.events =
      ({ project_id := 1, event_name := "mouse_move", source := "web",
         user_id := "u1", session_id := "s1", user_agent := "UA",
         ip_address := some "1.2.3.4" } : Event) :: dbFix.events := by
  exact c3_no_sampling_before_persistence envFix dbFix reqFix
    { project_id := 1, event_name := "mouse_move", source := "web",
      user_id := "u1", session_id := "s1", user_agent := "UA",
      ip_address := some "1.2.3.4" } (1/10) 50 rfl
    (by norm_num [should_sample_event, high_frequency_events])

/-- C5: a capture request rejected by serializer validation — missing or
blank event name, disallowed source, or an unknown or inactive API key —
leaves the tenant-scope counters and the event table untouched; the only
counter it changes is the IP-scope counter of its own (ip, minute bucket)
key, which it increments by exactly 1. -/
theorem c5_validation_reject_counters (env : Env) (db : DBState)
    (req : CaptureRequest) (errs : List FieldError)
    (h : (capture_event env db req).1 = CaptureResponse.validationFailed errs) :
    (capture_event env db req).2.projectCounters = db.projectCounters
    ∧ (capture_event env db req).2.events = db.events
    ∧ (capture_event env db req).2.ipCounters
        (get_client_ip req.x_forwarded_for req.remote_addr, env.minute_bucket)
      = some ((db.ipCounters (get_client_ip req.x_forwarded_for req.remote_addr,
          env.minute_bucket)).getD 0 + 1)
    ∧ (∀ k, k ≠ (get_client_ip req.x_forwarded_for req.remote_addr,
          env.minute_bucket) →
        (capture_event env db req).2.ipCounters k = db.ipCounters k) := by
  rcases capture_event_char env db req with ⟨hip, heq⟩ | ⟨hip, errs0, hrv, heq⟩ |
    ⟨hip, attrs, key, hrv, hak, hfp, ⟨hpr, heq⟩ | ⟨hpr, heq⟩⟩
  · rw [heq] at h; simp at h
  · rw [heq]
    refine ⟨rfl, rfl, ?_, ?_⟩
    · exact check_ip_bump db.ipCounters
        (get_client_ip req.x_forwarded_for req.remote_addr) env.minute_bucket 100
    · intro k hk
      exact check_ip_frame db.ipCounters
        (get_client_ip req.x_forwarded_for req.remote_addr) env.minute_bucket 100 k hk
  · rw [heq] at h; simp at h
  · rw [heq] at h; simp at h

/-- Witness for C5: a request with a blank event name bumps only its own IP
counter and touches no tenant counter. -/
theorem c5_witness :
    (capture_event envFix dbFix
      { reqFix with event_name := some "" }).2.projectCounters
        = dbFix.projectCounters
    ∧ (capture_event envFix dbFix
        { reqFix with event_name := some "" }).2.ipCounters
          (some "1.2.3.4", 0) = some 1 := by
  have h := c5_validation_reject_counters envFix dbFix
    { reqFix with event_name := some "" } [FieldError.eventNameBlank] rfl
  exact ⟨h.1, h.2.2.1⟩

/-- C10: when a capture request reaches persistence, the stored user id and
session id are never empty: an explicitly supplied empty string is falsy for
the serializer and is replaced by the derived anonymous user id and derived
session id respectively. -/
theorem c10_empty_ids_replaced (env : Env) (db : DBState) (req : CaptureRequest)
    (e : Event) (h : (capture_event env db req).1 = CaptureResponse.created e) :
    e.user_id ≠ "" ∧ e.session_id ≠ ""
    ∧ (req.user_id = some "" → e.user_id =
        generate_anonymous_user_id env.sha256hex env.uuid4hex
          (get_client_ip req.x_forwarded_for req.remote_addr)
          (some req.meta_user_agent))
    ∧ (req.session_id = some "" → e.session_id =
        generate_session_id (some e.user_id) none env.today env.random_digits) := by
  rcases capture_event_char env db req with ⟨hip, heq⟩ | ⟨hip, errs0, hrv, heq⟩ |
    ⟨hip, attrs, key, hrv, hak, hfp, ⟨hpr, heq⟩ | ⟨hpr, heq⟩⟩
  · rw [heq] at h; simp at h
  · rw [heq] at h; simp at h
  · rw [heq] at h; simp at h
  · rw [heq] at h
    simp only [CaptureResponse.created.injEq] at h
    obtain ⟨-, -, -, huid, hsid⟩ := run_validation_ok_inv hrv
    have heu : e.user_id = attrs.user_id := by rw [← h]; rfl
    have hes : e.session_id = attrs.session_id := by rw [← h]; rfl
    refine ⟨?_, ?_, ?_, ?_⟩
    · rw [heu, huid]
      by_cases ht : pyTruthy req.user_id = true
      · rw [if_pos ht]
        rcases hu : req.user_id with _ | u
        · rw [hu] at ht; simp [pyTruthy] at ht
        · rw [hu] at ht
          simp only [pyTruthy, Bool.not_eq_true', beq_eq_false_iff_ne] at ht
          simpa using ht
      · rw [if_neg ht]
        exact generate_anonymous_user_id_ne_empty _ _ _ _
    · rw [hes, hsid]
      by_cases ht : pyTruthy req.session_id = true
      · rw [if_pos ht]
        rcases hs : req.session_id with _ | s0
        · rw [hs] at ht; simp [pyTruthy] at ht
        · rw [hs] at ht
          simp only [pyTruthy, Bool.not_eq_true', beq_eq_false_iff_ne] at ht
          simpa using ht
      · rw [if_neg ht]
        exact generate_session_id_fresh_ne_empty _ _ _
    · intro hu
      rw [heu, huid, hu]
      simp [pyTruthy]
    · intro hs
      rw [hes, hsid, hs, heu]
      simp [pyTruthy]

/-- Witness for C10 at a request that sends empty-string identifiers. -/
theorem c10_witness :
    ({ project_id := 1, event_name := "click", source := "web",
       user_id := "anon_01234567",
       session_id := "anon_01234567_20250907_0042", user_agent := "UA",
       ip_address := some "1.2.3.4" } : Event).user_id ≠ ""
    ∧ ({ project_id := 1, event_name := "click", source := "web",
         user_id := "anon_01234567",
         session_id := "anon_01234567_20250907_0042", user_agent := "UA",
         ip_address := some "1.2.3.4" } : Event).session_id ≠ "" := by
  have h := c10_empty_ids_replaced envFix dbFix reqEmptyIds
    { project_id := 1, event_name := "click", source := "web",
      user_id := "anon_01234567",
      session_id := "anon_01234567_20250907_0042", user_agent := "UA",
      ip_address := some "1.2.3.4" } rfl
  exact ⟨h.1, h.2.1⟩

/-- C4 counterexample: a request missing its event name and carrying an
unknown API key is answered with two rejection reasons in one response —
one from payload validation and one from tenant authentication — refuting
the claim that no two reasons ever appear together. -/
theorem c4_counterexample :
    (capture_event envFix dbFix reqTwoErrors).1 =
      CaptureResponse.validationFailed
        [FieldError.eventNameMissing, FieldError.apiKeyInvalid]
    ∧ numReasons (capture_event envFix dbFix reqTwoErrors).1 = 2 := ⟨rfl, rfl⟩

/-- C4 amended: rejection follows the fixed stage order, except that payload
validation and tenant authentication are checked together as field-level
validation and may report their reasons jointly in one response. Precisely:
the explicit invalid-API-key response is unreachable; an IP rejection means
the IP stage failed; a 400 response is non-empty and is either exactly the
joint field-validation errors (never containing the source error) or
exactly the single source-authorization error with all field checks passed;
a tenant rejection implies the IP, field and source stages all passed; and a
success implies every stage passed. -/
theorem c4_first_failing_stage (env : Env) (db : DBState) (req : CaptureRequest) :
    ((capture_event env db req).1 ≠ CaptureResponse.invalidApiKey)
    ∧ (∀ c l, (capture_event env db req).1 = CaptureResponse.ipRateLimited c l →
        ¬ ipPasses env db req)
    ∧ (∀ errs, (capture_event env db req).1 = CaptureResponse.validationFailed errs →
        ipPasses env db req ∧ errs ≠ []
        ∧ (FieldError.sourceNotAllowed ∈ errs →
            errs = [FieldError.sourceNotAllowed] ∧ fieldStagePasses db req)
        ∧ (FieldError.sourceNotAllowed ∉ errs →
            errs = toInternalValueErrors db.projects req))
    ∧ (∀ c l, (capture_event env db req).1 = CaptureResponse.projectRateLimited c l →
        ipPasses env db req ∧ fieldStagePasses db req ∧ sourceStagePasses db req)
    ∧ (∀ e, (capture_event env db req).1 = CaptureResponse.created e →
        ipPasses env db req ∧ fieldStagePasses db req ∧ sourceStagePasses db req
          ∧ tenantStagePasses env db req) := by
  rcases capture_event_char env db req with ⟨hip, heq⟩ | ⟨hip, errs0, hrv, heq⟩ |
    ⟨hip, attrs, key, hrv, hak, hfp, ⟨hpr, heq⟩ | ⟨hpr, heq⟩⟩
  · rw [heq]
    refine ⟨by simp, ?_, ?_, ?_, ?_⟩
    · intro c l _
      unfold ipPasses
      unfold ipCheckOf at hip
      simp [hip]
    · intro errs h; simp at h
    · intro c l h; simp at h
    · intro e h; simp at h
  all_goals
    have hipP : ipPasses env db req := by unfold ipPasses; unfold ipCheckOf at hip; exact hip
  · rw [heq]
    refine ⟨by simp, ?_, ?_, ?_, ?_⟩
    · intro c l h; simp at h
    · intro errs h
      simp only [CaptureResponse.validationFailed.injEq] at h
      subst h
      rcases run_validation_error_inv hrv with ⟨hne, herrs⟩ |
        ⟨hnil, herrs, p, k, hak, hfp, hsrc⟩
      · subst herrs
        refine ⟨hipP, hne, ?_, fun _ => rfl⟩
        intro hmem
        exact absurd hmem (sourceNotAllowed_not_in_field_errors db.projects req)
      · subst herrs
        refine ⟨hipP, by simp, fun _ => ⟨rfl, hnil⟩, ?_⟩
        intro hmem
        simp at hmem
    · intro c l h; simp at h
    · intro e h; simp at h
  · obtain ⟨hnil, ⟨k2, hak2, hfp2⟩, hsrc, -, -⟩ := run_validation_ok_inv hrv
    rw [heq]
    refine ⟨by simp, ?_, ?_, ?_, ?_⟩
    · intro c l h; simp at h
    · intro errs h; simp at h
    · intro c l _
      exact ⟨hipP, hnil, ⟨attrs.project, by simp [foundProject, hak2, hfp2], hsrc⟩⟩
    · intro e h; simp at h
  · obtain ⟨hnil, ⟨k2, hak2, hfp2⟩, hsrc, -, -⟩ := run_validation_ok_inv hrv
    rw [heq]
    refine ⟨by simp, ?_, ?_, ?_, ?_⟩
    · intro c l h; simp at h
    · intro errs h; simp at h
    · intro c l h; simp at h
    · intro e _
      refine ⟨hipP, hnil, ⟨attrs.project, by simp [foundProject, hak2, hfp2], hsrc⟩, ?_⟩
      refine ⟨attrs.project, by simp [foundProject, hak2, hfp2], ?_⟩
      unfold prCheckOf at hpr
      exact hpr

/-- Witness for the amended C4: the fixture success response implies every
stage passed. -/
theorem c4_first_failing_stage_witness :
    ipPasses envFix dbFix reqFix ∧ fieldStagePasses dbFix reqFix := by
  have h := (c4_first_failing_stage envFix dbFix reqFix).2.2.2.2
    { project_id := 1, event_name := "mouse_move", source := "web",
      user_id := "u1", session_id := "s1", user_agent := "UA",
      ip_address := some "1.2.3.4" } rfl
  exact ⟨h.1, h.2.1⟩
